import Mathlib

/-!
Verification of the interface-types adapter interpreter
(`src/instructions/interpreter.rs`).

The interpreter executes a compiled sequence of opcodes as a stack machine
against a wasm instance.  The interpreter source is embedded directly; the
`Stack`, `wasm` capability traits and the `Instruction` enumeration live in
sibling modules that are not part of the provided source, so those are
modelled from the specification (each such definition says so in its doc
comment).
-/

namespace InterfaceTypes

/-- Modelled from the spec: the closed set of type tags (spec sections 3 and
4.2).  The `wasm` module declaring `InterfaceType` is not among the provided
sources.  Pure markers, no payload. -/
inductive InterfaceType
  | I32
  | I64
  | F32
  | F64
  | String
  deriving DecidableEq

/-- Modelled from the spec: the tagged value union (spec section 3).  A Rust
`String` payload is represented by its UTF-8 byte sequence; float payloads
are represented by their raw bit patterns (no float arithmetic occurs in the
interpreter). -/
inductive InterfaceValue
  | I32 (v : Int)
  | I64 (v : Int)
  | F32 (bits : Nat)
  | F64 (bits : Nat)
  | String (bytes : List Nat)
  deriving DecidableEq

/-- Modelled from the spec: infallible projection of a value to its type tag
(spec section 4.2), the `input.into()` used by the `CallExport` branch. -/
def InterfaceValue.intoType : InterfaceValue → InterfaceType
  | .I32 _ => .I32
  | .I64 _ => .I64
  | .F32 _ => .F32
  | .F64 _ => .F64
  | .String _ => .String

/-- Error taxonomy: one constructor per distinct `Err(format!(...))`
construction in `interpreter.rs` (spec section 7); each carries exactly the
data interpolated into the diagnostic message besides the mnemonic. -/
inductive Error
  | OutOfRangeArgument (index : Nat)
  | ExportNotFound (name : String)
  | StackUnderflow (needed : Nat)
  | SignatureMismatch (expected : List InterfaceType)
  | ExportCallFailed (name : String)
  | ConversionError (expected : InterfaceType)
  | NoMemory
  | OutOfBoundsMemoryAccess (index : Nat) (length : Nat)
  | InvalidUtf8 (offset : Nat)
  deriving DecidableEq

/-- Modelled from the spec: the LIFO container (spec section 4.1).  `inner`
lists the values top first (the head is the most recently pushed value). -/
structure Stack (α : Type) where
  inner : List α
  deriving DecidableEq

/-- Modelled from the spec: a fresh empty stack. -/
def Stack.new {α : Type} : Stack α := ⟨[]⟩

/-- Modelled from the spec: append to top, O(1), never fails. -/
def Stack.push {α : Type} (s : Stack α) (x : α) : Stack α := ⟨x :: s.inner⟩

/-- Modelled from the spec: remove and return the last `n` pushed values,
stack top first; with fewer than `n` present, fail and leave the stack
unchanged.  The Rust `pop` mutates the stack and returns `Option<Vec<T>>`;
here the post-state is returned alongside. -/
def Stack.pop {α : Type} (s : Stack α) (n : Nat) : Option (List α) × Stack α :=
  if s.inner.length < n then (none, s)
  else (some (s.inner.take n), ⟨s.inner.drop n⟩)

/-- Modelled from the spec: whole-contents snapshot, bottom first (matches
the order the repository's tests observe via `as_slice`). -/
def Stack.snapshot {α : Type} (s : Stack α) : List α := s.inner.reverse

/-- Modelled from the spec: the Export capability contract (spec section
4.3).  `inputs_cardinality` and `outputs_cardinality` are independent trait
methods, not forced to agree with the lengths of `inputs` and `outputs`. -/
structure Export where
  inputs_cardinality : Nat
  outputs_cardinality : Nat
  inputs : List InterfaceType
  outputs : List InterfaceType
  call : List InterfaceValue → Except Unit (List InterfaceValue)

/-- Modelled from the spec: the Memory capability contract (spec section
4.3); `data` is the byte view `view::<u8>()` (each byte a `Nat` below 256 in
practice; nothing here depends on the bound). -/
structure Memory where
  data : List Nat

/-- Modelled from the spec: the Instance capability contract (spec section
4.3): export lookup by name and memory lookup by index. -/
structure Instance where
  exportLookup : String → Option Export
  memory : Nat → Option Memory

/-- The per-run execution context of `interpreter.rs` (struct `Runtime`):
borrowed invocation inputs, the owned stack, the borrowed instance. -/
structure Runtime where
  invocation_inputs : List InterfaceValue
  stack : Stack InterfaceValue
  wasm_instance : Instance

/-- An executable instruction: the Rust closure
`Fn(&mut Runtime) -> Result<(), String>` becomes a function from the
pre-state to the post-state paired with an optional error. -/
def Step : Type := Runtime → Runtime × Option Error

/-- Modelled from the spec: fallible narrowing of a value to a 32-bit signed
integer (`i32::try_from(&InterfaceValue)`, spec section 4.2): succeeds
exactly when the tag is `I32`, otherwise `ConversionError`. -/
def i32_from_value : InterfaceValue → Except Error Int
  | .I32 v => .ok v
  | _ => .error (.ConversionError .I32)

/-- The Rust `as usize` cast applied to an `i32`: sign-extension followed by
reinterpretation, i.e. reduction modulo 2^64 on a 64-bit host. -/
def i32_as_usize (v : Int) : Nat := (v % (2 : Int) ^ 64).toNat

/-- UTF-8 validation of a byte list starting at running offset `i`: returns
`none` when the remaining bytes are valid, otherwise `some j` where `j` is
the offset at which the first ill-formed sequence starts (Rust's
`Utf8Error::valid_up_to`). -/
def utf8ValidateFrom : List Nat → Nat → Option Nat
  | [], _ => none
  | b :: rest, i =>
    if b ≤ 0x7F then
      utf8ValidateFrom rest (i + 1)
    else if 0xC2 ≤ b ∧ b ≤ 0xDF then
      match rest with
      | b1 :: rest₂ =>
        if 0x80 ≤ b1 ∧ b1 ≤ 0xBF then utf8ValidateFrom rest₂ (i + 2) else some i
      | [] => some i
    else if b = 0xE0 then
      match rest with
      | b1 :: b2 :: rest₃ =>
        if (0xA0 ≤ b1 ∧ b1 ≤ 0xBF) ∧ (0x80 ≤ b2 ∧ b2 ≤ 0xBF) then
          utf8ValidateFrom rest₃ (i + 3)
        else some i
      | _ => some i
    else if (0xE1 ≤ b ∧ b ≤ 0xEC) ∨ b = 0xEE ∨ b = 0xEF then
      match rest with
      | b1 :: b2 :: rest₃ =>
        if (0x80 ≤ b1 ∧ b1 ≤ 0xBF) ∧ (0x80 ≤ b2 ∧ b2 ≤ 0xBF) then
          utf8ValidateFrom rest₃ (i + 3)
        else some i
      | _ => some i
    else if b = 0xED then
      match rest with
      | b1 :: b2 :: rest₃ =>
        if (0x80 ≤ b1 ∧ b1 ≤ 0x9F) ∧ (0x80 ≤ b2 ∧ b2 ≤ 0xBF) then
          utf8ValidateFrom rest₃ (i + 3)
        else some i
      | _ => some i
    else if b = 0xF0 then
      match rest with
      | b1 :: b2 :: b3 :: rest₄ =>
        if (0x90 ≤ b1 ∧ b1 ≤ 0xBF) ∧ (0x80 ≤ b2 ∧ b2 ≤ 0xBF) ∧ (0x80 ≤ b3 ∧ b3 ≤ 0xBF) then
          utf8ValidateFrom rest₄ (i + 4)
        else some i
      | _ => some i
    else if 0xF1 ≤ b ∧ b ≤ 0xF3 then
      match rest with
      | b1 :: b2 :: b3 :: rest₄ =>
        if (0x80 ≤ b1 ∧ b1 ≤ 0xBF) ∧ (0x80 ≤ b2 ∧ b2 ≤ 0xBF) ∧ (0x80 ≤ b3 ∧ b3 ≤ 0xBF) then
          utf8ValidateFrom rest₄ (i + 4)
        else some i
      | _ => some i
    else if b = 0xF4 then
      match rest with
      | b1 :: b2 :: b3 :: rest₄ =>
        if (0x80 ≤ b1 ∧ b1 ≤ 0x8F) ∧ (0x80 ≤ b2 ∧ b2 ≤ 0xBF) ∧ (0x80 ≤ b3 ∧ b3 ≤ 0xBF) then
          utf8ValidateFrom rest₄ (i + 4)
        else some i
      | _ => some i
    else some i

/-- Rust's `String::from_utf8`: on success the string is exactly the input
bytes; on failure the reported datum is the error's offset. -/
def from_utf8 (data : List Nat) : Except Nat (List Nat) :=
  match utf8ValidateFrom data 0 with
  | none => .ok data
  | some offset => .error offset

/-- The `ArgumentGet(index)` closure of `interpreter.rs` (lines 82-100):
reject an out-of-range index, otherwise push the input unchanged. -/
def argumentGetStep (index : Nat) : Step := fun runtime =>
  if h : runtime.invocation_inputs.length ≤ index then
    (runtime, some (Error.OutOfRangeArgument index))
  else
    ({ runtime with
        stack := runtime.stack.push (runtime.invocation_inputs.get ⟨index, by omega⟩) },
      none)

/-- The `CallExport(export_name)` closure of `interpreter.rs` (lines
101-157): resolve the export, pop `inputs_cardinality` values, compare the
popped types against the declared inputs as whole vectors, call the export,
push its outputs in order. -/
def callExportStep (export_name : String) : Step := fun runtime =>
  match runtime.wasm_instance.exportLookup export_name with
  | some e =>
    let inputs_cardinality := e.inputs_cardinality
    match runtime.stack.pop inputs_cardinality with
    | (some inputs, stack₂) =>
      let input_types := inputs.map InterfaceValue.intoType
      if input_types ≠ e.inputs then
        ({ runtime with stack := stack₂ }, some (Error.SignatureMismatch e.inputs))
      else
        match e.call inputs with
        | .ok outputs =>
          ({ runtime with stack := outputs.foldl Stack.push stack₂ }, none)
        | .error _ =>
          ({ runtime with stack := stack₂ }, some (Error.ExportCallFailed export_name))
    | (none, stack₂) =>
      ({ runtime with stack := stack₂ }, some (Error.StackUnderflow inputs_cardinality))
  | none => (runtime, some (Error.ExportNotFound export_name))

/-- Outcome of executing one instruction closure in a panic-aware model: the
closure either returns normally (post-state plus optional error), or the
process panics and delivers no value at all. -/
inductive ExecResult
  | ret (runtime : Runtime) (err : Option Error)
  | panicked

/-- The `usize` addition `pointer + length` of `interpreter.rs` line 170
under the overflow-checked (debug-build) semantics the repository's own test
suite runs: `none` models the panic on overflow.  A release build wraps
modulo 2^64 instead, and on every overflowing input then either reports the
wrapped index or panics slicing `[pointer..wrapped]` — under no build does
the source compute the unbounded mathematical sum. -/
def usize_add (a b : Nat) : Option Nat :=
  if a + b < 2 ^ 64 then some (a + b) else none

/-- The `ReadUtf8` closure of `interpreter.rs` (lines 159-207), panic-aware:
pop two values, resolve memory index 0, convert the popped length (position
0) and pointer (position 1) to `i32`, bounds-check `pointer + length`
(panicking when the `usize` addition overflows, which happens exactly when
either popped `i32` is negative), read the byte range, decode. -/
def readUtf8Exec (runtime : Runtime) : ExecResult :=
  match runtime.stack.pop 2 with
  | (some inputs, stack₂) =>
    match runtime.wasm_instance.memory 0 with
    | some memory =>
      match i32_from_value (inputs.getD 0 (.I32 0)) with
      | .error e => .ret { runtime with stack := stack₂ } (some e)
      | .ok length_i =>
        match i32_from_value (inputs.getD 1 (.I32 0)) with
        | .error e => .ret { runtime with stack := stack₂ } (some e)
        | .ok pointer_i =>
          let length := i32_as_usize length_i
          let pointer := i32_as_usize pointer_i
          let memory_view := memory.data
          match usize_add pointer length with
          | none => .panicked
          | some end_index =>
            if memory_view.length < end_index then
              .ret { runtime with stack := stack₂ }
                (some (Error.OutOfBoundsMemoryAccess end_index memory_view.length))
            else
              let data := (memory_view.drop pointer).take length
              match from_utf8 data with
              | .ok s =>
                .ret { runtime with stack := stack₂.push (InterfaceValue.String s) } none
              | .error offset =>
                .ret { runtime with stack := stack₂ } (some (Error.InvalidUtf8 offset))
    | none => .ret { runtime with stack := stack₂ } (some Error.NoMemory)
  | (none, stack₂) => .ret { runtime with stack := stack₂ } (some (Error.StackUnderflow 2))

/-- The `ReadUtf8` closure as a `Step` of the compiled program.  When
`readUtf8Exec` panics, the process delivers no return value, so a total
`Step`-typed adapter has nothing faithful to produce on that branch; it is
given a fixed arbitrary value there, and no theorem relies on it: every
statement about `ReadUtf8` semantics is over `readUtf8Exec`, and
`readUtf8Step_ret` ties the two together on every returning input. -/
def readUtf8Step : Step := fun runtime =>
  match readUtf8Exec runtime with
  | .ret runtime₂ err => (runtime₂, err)
  | .panicked => (runtime, none)

/-- The `Call(index)` closure of `interpreter.rs` (lines 209-217): only
prints a diagnostic (a side effect outside this embedding) and succeeds
without touching the runtime. -/
def callStep (_function_index : Nat) : Step := fun runtime => (runtime, none)

/-- Modelled from the spec: the instruction enumeration (spec section 3) is
declared outside the provided sources; the four supported opcodes carry the
operands the interpreter closes over, and `Other` stands for any opcode
outside the supported subset (the `_` arm of `try_from`). -/
inductive Instruction
  | ArgumentGet (index : Nat)
  | CallExport (export_name : String)
  | ReadUtf8
  | Call (function_index : Nat)
  | Other

/-- Compilation of one instruction to its executable closure; `none` marks
the `_ => unimplemented!()` arm, which aborts the process. -/
def compileInstruction : Instruction → Option Step
  | .ArgumentGet index => some (argumentGetStep index)
  | .CallExport export_name => some (callExportStep export_name)
  | .ReadUtf8 => some readUtf8Step
  | .Call function_index => some (callStep function_index)
  | .Other => none

/-- Outcome of `TryFrom<&Vec<Instruction>> for Interpreter`: either the
compiled program, or the process abort raised by `unimplemented!()`. -/
inductive CompileOutcome
  | ok (executable_instructions : List Step)
  | processAbort

/-- The `try_from` of `interpreter.rs` (lines 76-227): map every instruction
to its closure; an unsupported opcode makes the whole compilation abort. -/
def try_from (instructions : List Instruction) : CompileOutcome :=
  match instructions.mapM compileInstruction with
  | some steps => .ok steps
  | none => .processAbort

/-- The execution loop inside `Interpreter::run` (lines 56-61): execute the
steps in order, stopping at the first error. -/
def runLoop : List Step → Runtime → Except Error Runtime
  | [], runtime => .ok runtime
  | step :: rest, runtime =>
    match step runtime with
    | (runtime₂, none) => runLoop rest runtime₂
    | (_, some e) => .error e

/-- `Interpreter::run` (lines 43-64): build a fresh context with an empty
stack, run the loop, return the final stack on success or the first error. -/
def run (executable_instructions : List Step) (invocation_inputs : List InterfaceValue)
    (wasm_instance : Instance) : Except Error (Stack InterfaceValue) :=
  match runLoop executable_instructions ⟨invocation_inputs, Stack.new, wasm_instance⟩ with
  | .ok runtime => .ok runtime.stack
  | .error e => .error e

/-- Pushing a list of values in order prepends them reversed to the top-first
contents. -/
theorem foldl_push_inner {α : Type} (vs : List α) (s : Stack α) :
    (vs.foldl Stack.push s).inner = vs.reverse ++ s.inner := by
  induction vs generalizing s with
  | nil => rfl
  | cons v tl ih => simp [List.foldl_cons, ih, Stack.push]

/-- C7: `pop(n)` on a stack with fewer than `n` values fails and leaves the
stack unchanged; `pop(0)` succeeds with an empty result; popping exactly as
many values as were just pushed returns them most-recently-pushed first and
restores the stack underneath. -/
theorem stack_pop_spec (s : Stack InterfaceValue) (n : Nat) (vs : List InterfaceValue) :
    (s.inner.length < n → s.pop n = (none, s)) ∧
    (s.pop 0 = (some [], s)) ∧
    ((vs.foldl Stack.push s).pop vs.length = (some vs.reverse, s)) := by
  refine ⟨fun h => by simp [Stack.pop, h], by simp [Stack.pop], ?_⟩
  have hinner := foldl_push_inner vs s
  have hlen : (vs.foldl Stack.push s).inner.length = vs.length + s.inner.length := by
    simp [hinner]
  have hnotlt : ¬ (vs.foldl Stack.push s).inner.length < vs.length := by omega
  have htake : (vs.foldl Stack.push s).inner.take vs.length = vs.reverse := by
    rw [hinner, ← List.length_reverse vs, List.take_left]
  have hdrop : (vs.foldl Stack.push s).inner.drop vs.length = s.inner := by
    rw [hinner, ← List.length_reverse vs, List.drop_left]
  simp [Stack.pop, hnotlt, htake, hdrop]

/-- Witness for C7 at concrete inputs: popping from an empty stack fails,
and popping two just-pushed values returns them newest first. -/
theorem stack_pop_spec_witness :
    (Stack.new : Stack InterfaceValue).pop 1 = (none, Stack.new) ∧
    (([InterfaceValue.I32 1, InterfaceValue.I32 2].foldl Stack.push
        (Stack.new : Stack InterfaceValue)).pop 2
      = (some [InterfaceValue.I32 2, InterfaceValue.I32 1], Stack.new)) :=
  ⟨(stack_pop_spec Stack.new 1 []).1 (by decide),
   (stack_pop_spec Stack.new 2 [InterfaceValue.I32 1, InterfaceValue.I32 2]).2.2⟩

/-- C5: `ArgumentGet(i)` pushes `invocation_inputs[i]` unchanged when `i` is
in range, and otherwise fails with `OutOfRangeArgument(i)` leaving the whole
runtime (in particular the stack) unchanged. -/
theorem argument_get_spec (index : Nat) (runtime : Runtime) :
    (∀ h : index < runtime.invocation_inputs.length,
      argumentGetStep index runtime =
        ({ runtime with
            stack := runtime.stack.push (runtime.invocation_inputs.get ⟨index, h⟩) },
          none)) ∧
    (runtime.invocation_inputs.length ≤ index →
      argumentGetStep index runtime = (runtime, some (Error.OutOfRangeArgument index))) := by
  constructor
  · intro h
    simp [argumentGetStep, Nat.not_le_of_lt h]
  · intro h
    simp [argumentGetStep, h]

/-- Witness for C5 at concrete inputs: index 0 pushes the sole input, index
1 is out of range. -/
theorem argument_get_spec_witness :
    argumentGetStep 0
        ⟨[InterfaceValue.I32 42], Stack.new, ⟨fun _ => none, fun _ => none⟩⟩ =
      (⟨[InterfaceValue.I32 42], ⟨[InterfaceValue.I32 42]⟩, ⟨fun _ => none, fun _ => none⟩⟩,
        none) ∧
    argumentGetStep 1
        ⟨[InterfaceValue.I32 42], Stack.new, ⟨fun _ => none, fun _ => none⟩⟩ =
      (⟨[InterfaceValue.I32 42], Stack.new, ⟨fun _ => none, fun _ => none⟩⟩,
        some (Error.OutOfRangeArgument 1)) :=
  ⟨(argument_get_spec 0 _).1 (by decide), (argument_get_spec 1 _).2 (by decide)⟩

/-- C9: the `Call(function_index)` step always succeeds and has no stack
effect: the whole runtime is returned unchanged with no error (the printed
diagnostic is a side effect outside the state). -/
theorem call_step_no_stack_effect (function_index : Nat) (runtime : Runtime) :
    callStep function_index runtime = (runtime, none) := rfl

/-- C4 (observed code behavior): compiling a program containing an opcode
outside the supported subset aborts via `unimplemented!()` instead of
returning a recoverable `UnsupportedOpcode` error, while a program built
only from the supported opcodes compiles to a program of the same length. -/
theorem unsupported_opcode_aborts :
    try_from [Instruction.Other] = CompileOutcome.processAbort ∧
    try_from [Instruction.ArgumentGet 0, Instruction.ArgumentGet 0,
        Instruction.CallExport "foo", Instruction.ReadUtf8, Instruction.Call 7] =
      CompileOutcome.ok [argumentGetStep 0, argumentGetStep 0,
        callExportStep "foo", readUtf8Step, callStep 7] :=
  ⟨rfl, rfl⟩

/-- C8: `run` is deterministic — two calls with identical compiled program,
invocation inputs and instance yield identical results. -/
theorem run_deterministic (prog : List Step) (inputs₁ inputs₂ : List InterfaceValue)
    (inst₁ inst₂ : Instance) (h₁ : inputs₁ = inputs₂) (h₂ : inst₁ = inst₂) :
    run prog inputs₁ inst₁ = run prog inputs₂ inst₂ := by
  subst h₁
  subst h₂
  rfl

/-- Witness for C8 at concrete inputs. -/
theorem run_deterministic_witness :
    run [argumentGetStep 0] [InterfaceValue.I32 5] ⟨fun _ => none, fun _ => none⟩ =
      run [argumentGetStep 0] [InterfaceValue.I32 5] ⟨fun _ => none, fun _ => none⟩ :=
  run_deterministic [argumentGetStep 0] [InterfaceValue.I32 5] [InterfaceValue.I32 5]
    ⟨fun _ => none, fun _ => none⟩ ⟨fun _ => none, fun _ => none⟩ rfl rfl

/-- An export whose declared signature is untouched but whose call function
is replaced; used to state that a failing `CallExport` never invokes the
export. -/
def Export.withCall (e : Export)
    (f : List InterfaceValue → Except Unit (List InterfaceValue)) : Export :=
  { e with call := f }

/-- C1: `CallExport(name)` resolves the export (else `ExportNotFound`), pops
`inputs_cardinality` values (else `StackUnderflow` with the stack left as it
was), compares the popped values' type tags positionally as whole vectors
against the declared inputs (else `SignatureMismatch(expected)`), invokes the
export (an opaque failure surfaces as `ExportCallFailed(name)`), and on
success pushes every returned value in the order the export produced them. -/
theorem call_export_spec (export_name : String) (runtime : Runtime) :
    (runtime.wasm_instance.exportLookup export_name = none →
      callExportStep export_name runtime =
        (runtime, some (Error.ExportNotFound export_name))) ∧
    (∀ e, runtime.wasm_instance.exportLookup export_name = some e →
      (runtime.stack.inner.length < e.inputs_cardinality →
        callExportStep export_name runtime =
          (runtime, some (Error.StackUnderflow e.inputs_cardinality))) ∧
      (∀ vals stack₂, runtime.stack.pop e.inputs_cardinality = (some vals, stack₂) →
        (vals.map InterfaceValue.intoType ≠ e.inputs →
          callExportStep export_name runtime =
            ({ runtime with stack := stack₂ }, some (Error.SignatureMismatch e.inputs))) ∧
        (vals.map InterfaceValue.intoType = e.inputs →
          (e.call vals = .error () →
            callExportStep export_name runtime =
              ({ runtime with stack := stack₂ },
                some (Error.ExportCallFailed export_name))) ∧
          (∀ outs, e.call vals = .ok outs →
            callExportStep export_name runtime =
              ({ runtime with stack := outs.foldl Stack.push stack₂ }, none))))) := by
  refine ⟨fun h => by simp [callExportStep, h], fun e he => ⟨fun hlt => ?_, ?_⟩⟩
  · have hpop : runtime.stack.pop e.inputs_cardinality = (none, runtime.stack) := by
      simp [Stack.pop, hlt]
    simp [callExportStep, he, hpop]
  · intro vals stack₂ hpop
    refine ⟨fun hne => by simp [callExportStep, he, hpop, hne], fun heq => ?_⟩
    constructor
    · intro hcall
      simp [callExportStep, he, hpop, heq, hcall]
    · intro outs hcall
      simp [callExportStep, he, hpop, heq, hcall]

/-- A concrete export adding two 32-bit integers, as in the repository's
`sum` test export. -/
def sumExport : Export where
  inputs_cardinality := 2
  outputs_cardinality := 1
  inputs := [.I32, .I32]
  outputs := [.I32]
  call := fun args =>
    match args with
    | [.I32 a, .I32 b] => .ok [.I32 (a + b)]
    | _ => .error ()

/-- A concrete instance resolving every export name to `sumExport` and
having no memory. -/
def sumInstance : Instance where
  exportLookup := fun _ => some sumExport
  memory := fun _ => none

/-- Witness for C1 at concrete inputs: calling the sum export with `3` and
`4` on the stack leaves `7` on the stack with no error. -/
theorem call_export_spec_witness :
    callExportStep "sum"
        ⟨[], ⟨[InterfaceValue.I32 3, InterfaceValue.I32 4]⟩, sumInstance⟩ =
      (⟨[], ⟨[InterfaceValue.I32 7]⟩, sumInstance⟩, none) :=
  ((((call_export_spec "sum"
        ⟨[], ⟨[InterfaceValue.I32 3, InterfaceValue.I32 4]⟩, sumInstance⟩).2
      sumExport rfl).2
      [InterfaceValue.I32 3, InterfaceValue.I32 4] ⟨[]⟩ rfl).2
      rfl).2
      [InterfaceValue.I32 7] rfl

/-- C6: when the arity check or the positional type check of `CallExport`
fails, the export's call function is never invoked — the step's observable
outcome (resulting stack and error) does not depend on that function at
all. -/
theorem call_export_no_invoke (export_name : String) (r₁ r₂ : Runtime) (e : Export)
    (f : List InterfaceValue → Except Unit (List InterfaceValue))
    (hs : r₁.stack = r₂.stack)
    (h₁ : r₁.wasm_instance.exportLookup export_name = some e)
    (h₂ : r₂.wasm_instance.exportLookup export_name = some (e.withCall f))
    (hfail : r₁.stack.inner.length < e.inputs_cardinality ∨
      ∀ vals stack₂, r₁.stack.pop e.inputs_cardinality = (some vals, stack₂) →
        vals.map InterfaceValue.intoType ≠ e.inputs) :
    (callExportStep export_name r₁).1.stack = (callExportStep export_name r₂).1.stack ∧
    (callExportStep export_name r₁).2 = (callExportStep export_name r₂).2 := by
  rcases hfail with hlt | hty
  · have hpop₁ : r₁.stack.pop e.inputs_cardinality = (none, r₁.stack) := by
      simp [Stack.pop, hlt]
    have hpop₂ : r₂.stack.pop e.inputs_cardinality = (none, r₂.stack) := by
      rw [← hs]
      exact hpop₁
    simp [callExportStep, h₁, h₂, hpop₁, hpop₂, Export.withCall, hs]
  · cases hpop : r₁.stack.pop e.inputs_cardinality with
    | mk opt s =>
      have hpop₂ : r₂.stack.pop e.inputs_cardinality = (opt, s) := by
        rw [← hs]
        exact hpop
      cases opt with
      | none => simp [callExportStep, h₁, h₂, hpop, hpop₂, Export.withCall]
      | some vals =>
        have hne := hty vals s hpop
        simp [callExportStep, h₁, h₂, hpop, hpop₂, Export.withCall, hne]

/-- A concrete export declaring one `I32` output whose call function fails;
base export for the C6 witness. -/
def failExport : Export where
  inputs_cardinality := 1
  outputs_cardinality := 0
  inputs := [.I32]
  outputs := []
  call := fun _ => .error ()

/-- A concrete replacement call function that would succeed and push a
value, to contrast with `failExport` in the C6 witness. -/
def constOkCall : List InterfaceValue → Except Unit (List InterfaceValue) :=
  fun _ => .ok [InterfaceValue.I32 99]

/-- Witness for C6 at concrete inputs: with an empty stack and an export of
arity 1, the step's observable outcome is the same whether the export's call
function fails or succeeds. -/
theorem call_export_no_invoke_witness :
    ((callExportStep "f"
        ⟨[], Stack.new, ⟨fun _ => some failExport, fun _ => none⟩⟩).1.stack =
      (callExportStep "f"
        ⟨[], Stack.new,
          ⟨fun _ => some (failExport.withCall constOkCall), fun _ => none⟩⟩).1.stack) ∧
    ((callExportStep "f"
        ⟨[], Stack.new, ⟨fun _ => some failExport, fun _ => none⟩⟩).2 =
      (callExportStep "f"
        ⟨[], Stack.new,
          ⟨fun _ => some (failExport.withCall constOkCall), fun _ => none⟩⟩).2) :=
  call_export_no_invoke "f"
    ⟨[], Stack.new, ⟨fun _ => some failExport, fun _ => none⟩⟩
    ⟨[], Stack.new, ⟨fun _ => some (failExport.withCall constOkCall), fun _ => none⟩⟩
    failExport constOkCall rfl rfl rfl (Or.inl (by decide))

/-- C10: once the export call succeeds, every returned value is pushed onto
the stack with no error raised, with no hypothesis relating the returned
values to the export's declared `outputs` or `outputs_cardinality` — the
interpreter performs no output validation at all. -/
theorem call_export_no_output_validation (export_name : String) (runtime : Runtime)
    (e : Export) (vals : List InterfaceValue) (stack₂ : Stack InterfaceValue)
    (outs : List InterfaceValue)
    (h₁ : runtime.wasm_instance.exportLookup export_name = some e)
    (h₂ : runtime.stack.pop e.inputs_cardinality = (some vals, stack₂))
    (h₃ : vals.map InterfaceValue.intoType = e.inputs)
    (h₄ : e.call vals = .ok outs) :
    callExportStep export_name runtime =
      ({ runtime with stack := outs.foldl Stack.push stack₂ }, none) := by
  simp [callExportStep, h₁, h₂, h₃, h₄]

/-- A concrete export declaring a single `I32` output but returning a string
and an `I64` instead; used to witness the absence of output validation. -/
def lyingExport : Export where
  inputs_cardinality := 0
  outputs_cardinality := 1
  inputs := []
  outputs := [.I32]
  call := fun _ => .ok [InterfaceValue.String [104], InterfaceValue.I64 5]

/-- Witness for C10 at concrete inputs: the export declares one `I32` output
yet returns `[String, I64]`, both of which are pushed with no error, and the
returned type tags indeed differ from the declaration in number and kind. -/
theorem call_export_no_output_validation_witness :
    callExportStep "f"
        ⟨[], Stack.new, ⟨fun _ => some lyingExport, fun _ => none⟩⟩ =
      (⟨[], ⟨[InterfaceValue.I64 5, InterfaceValue.String [104]]⟩,
          ⟨fun _ => some lyingExport, fun _ => none⟩⟩, none) ∧
    [InterfaceValue.String [104], InterfaceValue.I64 5].map InterfaceValue.intoType ≠
      lyingExport.outputs ∧
    [InterfaceValue.String [104], InterfaceValue.I64 5].length ≠
      lyingExport.outputs_cardinality :=
  ⟨call_export_no_output_validation "f"
      ⟨[], Stack.new, ⟨fun _ => some lyingExport, fun _ => none⟩⟩
      lyingExport [] Stack.new
      [InterfaceValue.String [104], InterfaceValue.I64 5] rfl rfl rfl rfl,
    by decide, by decide⟩

/-- Running a concatenated program runs the first part, then the second from
the state the first part reached, stopping at the first error. -/
theorem runLoop_append (a b : List Step) (r : Runtime) :
    runLoop (a ++ b) r = (runLoop a r).bind (runLoop b) := by
  induction a generalizing r with
  | nil => rfl
  | cons s tl ih =>
    rw [List.cons_append]
    simp only [runLoop]
    rcases s r with ⟨r₂, _ | e⟩
    · exact ih r₂
    · rfl

/-- C3: `run` starts from a fresh empty stack (the empty program returns the
empty stack), returns the final stack when every step succeeds, and returns
the first failing step's error verbatim — for any suffix of later steps,
which are therefore never executed, and with no stack returned on
failure. -/
theorem run_spec (p₁ p₂ prog : List Step) (s : Step)
    (invocation_inputs : List InterfaceValue) (wasm_instance : Instance)
    (r r₂ : Runtime) (e : Error) :
    (run [] invocation_inputs wasm_instance = .ok Stack.new) ∧
    (runLoop prog ⟨invocation_inputs, Stack.new, wasm_instance⟩ = .ok r →
      run prog invocation_inputs wasm_instance = .ok r.stack) ∧
    (runLoop p₁ ⟨invocation_inputs, Stack.new, wasm_instance⟩ = .ok r →
      s r = (r₂, some e) →
      run (p₁ ++ s :: p₂) invocation_inputs wasm_instance = .error e) := by
  refine ⟨rfl, fun h => by simp [run, h], fun h hs => ?_⟩
  simp [run, runLoop_append, h, runLoop, hs, Except.bind]

/-- Witness for C3 at concrete inputs: the second step fails with
`OutOfRangeArgument 5`, the run returns exactly that error, and the trailing
`ReadUtf8` step is never reached. -/
theorem run_spec_witness :
    run [argumentGetStep 0, argumentGetStep 5, readUtf8Step]
        [InterfaceValue.I32 1] ⟨fun _ => none, fun _ => none⟩ =
      .error (Error.OutOfRangeArgument 5) :=
  (run_spec [argumentGetStep 0] [readUtf8Step] [] (argumentGetStep 5)
      [InterfaceValue.I32 1] ⟨fun _ => none, fun _ => none⟩
      ⟨[InterfaceValue.I32 1], ⟨[InterfaceValue.I32 1]⟩, ⟨fun _ => none, fun _ => none⟩⟩
      ⟨[InterfaceValue.I32 1], ⟨[InterfaceValue.I32 1]⟩, ⟨fun _ => none, fun _ => none⟩⟩
      (Error.OutOfRangeArgument 5)).2.2 rfl rfl

/-- On every input where the `ReadUtf8` closure returns, the `Step`-typed
adapter used in compiled programs agrees with the panic-aware model. -/
theorem readUtf8Step_ret (runtime runtime₂ : Runtime) (err : Option Error)
    (h : readUtf8Exec runtime = .ret runtime₂ err) :
    readUtf8Step runtime = (runtime₂, err) := by
  simp [readUtf8Step, h]

/-- C2 (amended): `ReadUtf8` pops two values (else a stack underflow error),
resolves memory index 0 (else `NoMemory`) — the memory resolution happens
BEFORE the integer conversions — then converts position 0 (top) as the byte
length and position 1 as the byte pointer (else the conversion error).  When
the `usize` sum `pointer + length` overflows, the step panics instead of
returning an error; otherwise it bounds-checks the sum against the memory
length (else `OutOfBoundsMemoryAccess`), decodes the byte range as UTF-8
(else `InvalidUtf8` with the offending offset), and pushes the decoded
string. -/
theorem read_utf8_spec (runtime : Runtime) :
    (runtime.stack.inner.length < 2 →
      readUtf8Exec runtime = .ret runtime (some (Error.StackUnderflow 2))) ∧
    (∀ vals stack₂, runtime.stack.pop 2 = (some vals, stack₂) →
      (runtime.wasm_instance.memory 0 = none →
        readUtf8Exec runtime = .ret { runtime with stack := stack₂ } (some Error.NoMemory)) ∧
      (∀ mem, runtime.wasm_instance.memory 0 = some mem →
        (∀ err, i32_from_value (vals.getD 0 (.I32 0)) = .error err →
          readUtf8Exec runtime = .ret { runtime with stack := stack₂ } (some err)) ∧
        (∀ lenI, i32_from_value (vals.getD 0 (.I32 0)) = .ok lenI →
          (∀ err, i32_from_value (vals.getD 1 (.I32 0)) = .error err →
            readUtf8Exec runtime = .ret { runtime with stack := stack₂ } (some err)) ∧
          (∀ ptrI, i32_from_value (vals.getD 1 (.I32 0)) = .ok ptrI →
            (usize_add (i32_as_usize ptrI) (i32_as_usize lenI) = none →
              readUtf8Exec runtime = .panicked) ∧
            (∀ endIdx, usize_add (i32_as_usize ptrI) (i32_as_usize lenI) = some endIdx →
              (mem.data.length < endIdx →
                readUtf8Exec runtime = .ret { runtime with stack := stack₂ }
                  (some (Error.OutOfBoundsMemoryAccess endIdx mem.data.length))) ∧
              (endIdx ≤ mem.data.length →
                (∀ off,
                  from_utf8
                      ((mem.data.drop (i32_as_usize ptrI)).take (i32_as_usize lenI)) =
                    .error off →
                  readUtf8Exec runtime =
                    .ret { runtime with stack := stack₂ } (some (Error.InvalidUtf8 off))) ∧
                (∀ s,
                  from_utf8
                      ((mem.data.drop (i32_as_usize ptrI)).take (i32_as_usize lenI)) =
                    .ok s →
                  readUtf8Exec runtime =
                    .ret { runtime with stack := stack₂.push (InterfaceValue.String s) }
                      none))))))) := by
  constructor
  · intro hlt
    have hpop : runtime.stack.pop 2 = (none, runtime.stack) := by
      simp [Stack.pop, hlt]
    simp [readUtf8Exec, hpop]
  · intro vals stack₂ hpop
    refine ⟨fun hmem => by simp [readUtf8Exec, hpop, hmem], fun mem hmem => ?_⟩
    constructor
    · intro err herr
      have herr₂ : i32_from_value (vals[0]?.getD (InterfaceValue.I32 0)) = .error err := by
        simpa using herr
      simp [readUtf8Exec, hpop, hmem, herr₂]
    · intro lenI hlen
      have hlen₂ : i32_from_value (vals[0]?.getD (InterfaceValue.I32 0)) = .ok lenI := by
        simpa using hlen
      constructor
      · intro err herr
        have herr₂ : i32_from_value (vals[1]?.getD (InterfaceValue.I32 0)) = .error err := by
          simpa using herr
        simp [readUtf8Exec, hpop, hmem, hlen₂, herr₂]
      · intro ptrI hptr
        have hptr₂ : i32_from_value (vals[1]?.getD (InterfaceValue.I32 0)) = .ok ptrI := by
          simpa using hptr
        constructor
        · intro hadd
          simp [readUtf8Exec, hpop, hmem, hlen₂, hptr₂, hadd]
        · intro endIdx hadd
          constructor
          · intro hoob
            simp [readUtf8Exec, hpop, hmem, hlen₂, hptr₂, hadd, hoob]
          · intro hle
            have hnotlt : ¬ mem.data.length < endIdx := by omega
            refine ⟨fun off hoff => ?_, fun s hs => ?_⟩
            · simp [readUtf8Exec, hpop, hmem, hlen₂, hptr₂, hadd, hnotlt, hoff]
            · simp [readUtf8Exec, hpop, hmem, hlen₂, hptr₂, hadd, hnotlt, hs]

/-- Witness for C2 at concrete inputs: with stack `[I32 2, I32 0]` (length 2
on top, pointer 0 below) and memory bytes `[104, 105]` ("hi"), the
non-overflowing sum passes the bounds check and the step pushes the decoded
string. -/
theorem read_utf8_spec_witness :
    readUtf8Exec ⟨[], ⟨[InterfaceValue.I32 2, InterfaceValue.I32 0]⟩,
        ⟨fun _ => none, fun _ => some ⟨[104, 105]⟩⟩⟩ =
      .ret ⟨[], ⟨[InterfaceValue.String [104, 105]]⟩,
        ⟨fun _ => none, fun _ => some ⟨[104, 105]⟩⟩⟩ none :=
  (((((((read_utf8_spec
      ⟨[], ⟨[InterfaceValue.I32 2, InterfaceValue.I32 0]⟩,
        ⟨fun _ => none, fun _ => some ⟨[104, 105]⟩⟩⟩).2
    [InterfaceValue.I32 2, InterfaceValue.I32 0] ⟨[]⟩ rfl).2
    ⟨[104, 105]⟩ rfl).2
    2 rfl).2
    0 rfl).2
    2 rfl).2
    (by decide)).2
    [104, 105] rfl

/-- Counterexample for C2 as stated, in two parts.  First, with two
non-integer values on the stack and no memory at index 0, the step fails
with `NoMemory`, not with the `ConversionError` the claim's check ordering
(conversion before memory resolution) demands.  Second, with length
`I32(-1)` (top) and pointer `I32(5)` over a 4-byte memory, the `usize` sum
overflows and the step panics rather than returning the graceful
`OutOfBoundsMemoryAccess` error the claim describes. -/
theorem read_utf8_counterexample :
    (readUtf8Exec ⟨[], ⟨[InterfaceValue.String [], InterfaceValue.String []]⟩,
        ⟨fun _ => none, fun _ => none⟩⟩ =
      .ret ⟨[], ⟨[]⟩, ⟨fun _ => none, fun _ => none⟩⟩ (some Error.NoMemory)) ∧
    Error.NoMemory ≠ Error.ConversionError InterfaceType.I32 ∧
    (readUtf8Exec ⟨[], ⟨[InterfaceValue.I32 (-1), InterfaceValue.I32 5]⟩,
        ⟨fun _ => none, fun _ => some ⟨[0, 0, 0, 0]⟩⟩⟩ = .panicked) :=
  ⟨rfl, by decide, rfl⟩

end InterfaceTypes
